import Mathlib

/-!
Shallow embedding of the exposure-calibration and quality-control core of the
peanut-imaging repository (source of truth: `src/main.py`; `src/calibration.py`
is an older near-duplicate of the same routines).

Floating-point values in the source are modelled as exact rationals (`ℚ`);
image frames are rectangular grids of intensities; camera capture results are
`Option Frame` (`none` = incomplete frame); exceptions raised by the source
(`ValueError` from `validate_rois`, Python's unbound-local error at the final
`return`) become an explicit `Except` error value.
-/

namespace PeanutCalib

/-! ### QC thresholds (module-level constants in `src/main.py`) -/

def MAX_VAL : ℚ := 255

def TARGET_WHITE : ℚ := 180

def TARGET_BLACK : ℚ := 20

def WHITE_TOL : ℚ := 5

def DR_MIN : ℚ := 30

def SAT_THRESH : ℚ := 0.98

def STD_WHITE_MAX : ℚ := 8

def STD_BLACK_MAX : ℚ := 8

def DRIFT_FRAC_MAX : ℚ := 0.10

/-- `itertaions = 5` (sic) in `src/main.py`: the calibration iteration budget. -/
def itertaions : ℕ := 5

/-! ### Frames and regions -/

/-- A frame is a 2D grid of intensity samples (row list of pixel rows). -/
abbrev Frame := List (List ℚ)

/-- An axis-aligned rectangle `(x1, y1, x2, y2)`, as in `WHITE_ROIS` /
`BLACK_ROIS` of the source (nonnegative integer coordinates). -/
structure Roi where
  x1 : ℕ
  y1 : ℕ
  x2 : ℕ
  y2 : ℕ
deriving DecidableEq

/-- Number of rows, `img.shape[0]`. -/
def frameH (img : Frame) : ℕ := img.length

/-- Number of columns, `img.shape[1]` (frames are rectangular). -/
def frameW (img : Frame) : ℕ := (img.headD []).length

/-- Python slice `l[a:b]` for nonnegative bounds: clips at the list length. -/
def pySlice (a b : ℕ) (l : List α) : List α := (l.drop a).take (b - a)

/-- `img[y1:y2, x1:x2]`: the sub-grid selected by a region. -/
def patch (img : Frame) (r : Roi) : Frame :=
  (pySlice r.y1 r.y2 img).map (pySlice r.x1 r.x2)

def patchSum (p : Frame) : ℚ := (p.map List.sum).sum

def patchCount (p : Frame) : ℕ := (p.map List.length).sum

/-- `patch.mean()`: mean over all pixels of the selected sub-grid. -/
def patch_mean (img : Frame) (r : Roi) : ℚ :=
  patchSum (patch img r) / (patchCount (patch img r) : ℚ)

/-- Population variance of a patch (the quantity whose square root is
`patch.std()`). -/
def patch_var (img : Frame) (r : Roi) : ℚ :=
  (((patch img r).map (fun row => (row.map (fun x => (x - patch_mean img r) ^ 2)).sum)).sum)
    / (patchCount (patch img r) : ℚ)

/-- `patch.std()`: population standard deviation of a patch. -/
noncomputable def patch_std (img : Frame) (r : Roi) : ℝ :=
  Real.sqrt ((patch_var img r : ℚ) : ℝ)

/-- `np.mean` of a list of rationals. -/
def listMean (l : List ℚ) : ℚ := l.sum / (l.length : ℚ)

/-- First component of `roi_stats`: `float(np.mean(means))`, the unweighted
mean of per-region means. -/
def roi_stats_mean (img : Frame) (rois : List Roi) : ℚ :=
  listMean (rois.map (patch_mean img))

/-- Second component of `roi_stats`: `float(np.mean(stds))`, the unweighted
mean of per-region standard deviations. -/
noncomputable def roi_stats_std (img : Frame) (rois : List Roi) : ℝ :=
  ((rois.map (patch_std img)).sum) / ((rois.map (patch_std img)).length : ℝ)

/-- Modelled from the spec: the rejected alternative aggregation the spec
contrasts `roi_stats` with — the area-weighted pooled mean over all pixels of
all regions. Used only to show `roi_stats_mean` differs from it. -/
def pooled_pixel_mean (img : Frame) (rois : List Roi) : ℚ :=
  ((rois.map (fun r => patchSum (patch img r))).sum)
    / ((rois.map (fun r => patchCount (patch img r))).sum : ℚ)

/-- `validate_rois(img_shape)` from the source, with the global ROI lists made
an explicit argument: `True` iff every region satisfies
`0 <= x1 < x2 <= w and 0 <= y1 < y2 <= h` (the source raises `ValueError` on
the first violation). -/
def validate_rois (rois : List Roi) (h w : ℕ) : Bool :=
  rois.all fun r =>
    decide (0 ≤ r.x1) && decide (r.x1 < r.x2) && decide (r.x2 ≤ w) &&
    decide (0 ≤ r.y1) && decide (r.y1 < r.y2) && decide (r.y2 ≤ h)

/-! ### Intensity normalization -/

/-- `normalize_with_refs(img, I_white, I_black)`: gain/offset rescaling with an
epsilon-guarded denominator, clipped elementwise to `[0, 1]`
(`np.clip(x, 0.0, 1.0) = min (max x 0) 1`). -/
def normalize_with_refs (img : Frame) (iWhite iBlack : ℚ) : Frame :=
  let eps : ℚ := 1e-6
  let gain := 1 / max (iWhite - iBlack) eps
  let offset := -iBlack * gain
  img.map fun row => row.map fun p => min (max (p * gain + offset) 0) 1

/-! ### Quality gate -/

/-- The five warning kinds emitted by `apply_qc_and_print`, each carrying the
numeric datum interpolated into the source's message string. -/
inductive Warning where
  | drift (frac : ℚ)
  | saturation
  | lowDynamicRange (range : ℚ)
  | noisyWhite (std : ℚ)
  | noisyBlack (std : ℚ)
deriving DecidableEq

/-- `apply_qc_and_print` from `src/main.py`: builds the warning list by the
source's five sequential checks and returns it (`led_id` is only used for
printing in the source; `cal_Ib` is accepted but unused there too). -/
def apply_qc_and_print (led_id : ℕ) (iw ib std_w std_b cal_Iw cal_Ib : ℚ) :
    List Warning :=
  let _ := led_id
  let _ := cal_Ib
  let dyn_range := iw - ib
  let warnings : List Warning := []
  let warnings :=
    if cal_Iw > 1e-3 then
      if |iw - cal_Iw| / cal_Iw > DRIFT_FRAC_MAX then
        warnings ++ [Warning.drift (|iw - cal_Iw| / cal_Iw)]
      else warnings
    else warnings
  let warnings :=
    if iw > SAT_THRESH * MAX_VAL then warnings ++ [Warning.saturation] else warnings
  let warnings :=
    if dyn_range < DR_MIN then warnings ++ [Warning.lowDynamicRange dyn_range]
    else warnings
  let warnings :=
    if std_w > STD_WHITE_MAX then warnings ++ [Warning.noisyWhite std_w] else warnings
  let warnings :=
    if std_b > STD_BLACK_MAX then warnings ++ [Warning.noisyBlack std_b] else warnings
  warnings

/-! ### Exposure calibrator -/

/-- The success condition of the calibration loop (`main.py` lines 278-283):
white mean within tolerance of target, dynamic range sufficient, and white
mean strictly below the saturation level. -/
def calSuccess (iw ib : ℚ) : Prop :=
  |iw - TARGET_WHITE| ≤ WHITE_TOL ∧ iw - ib ≥ DR_MIN ∧ iw < SAT_THRESH * MAX_VAL

instance (iw ib : ℚ) : Decidable (calSuccess iw ib) :=
  inferInstanceAs (Decidable (_ ∧ _ ∧ _))

/-- The exposure adjustment rule (`main.py` lines 286-292): strict comparison
against the saturation level, then strict comparison against the target. -/
def adjust_exposure (iw exp_us : ℚ) : ℚ :=
  if iw > SAT_THRESH * MAX_VAL then exp_us * 0.7
  else if iw > TARGET_WHITE then exp_us * 0.9
  else exp_us * 1.3

/-- Errors the calibration loop can raise: `ValueError` from `validate_rois`,
and Python's unbound-local error at the final `return exp_us, Iw, Ib` when no
iteration ever assigned `Iw`/`Ib`. -/
inductive CalibError where
  | roiOutOfBounds
  | unboundLocal
deriving DecidableEq

/-- The triple returned by `calibrate_led`. -/
structure CalibResult where
  exposure : ℚ
  iWhite : ℚ
  iBlack : ℚ
deriving DecidableEq

instance : DecidableEq (Except CalibError CalibResult) := fun a b =>
  match a, b with
  | .ok x, .ok y =>
    if h : x = y then .isTrue (by rw [h]) else .isFalse (by simp [h])
  | .ok _, .error _ => .isFalse (by simp)
  | .error _, .ok _ => .isFalse (by simp)
  | .error x, .error y =>
    if h : x = y then .isTrue (by rw [h]) else .isFalse (by simp [h])

/-- The device state and configuration that `calibrate_led` reads as globals
in the source: the camera's reported exposure range and the two ROI lists. -/
structure Cfg where
  expMin : ℚ
  expMax : ℚ
  whiteRois : List Roi
  blackRois : List Roi

/-- One pass of the `for iteration in range(itertaions)` loop of
`calibrate_led`, recursing over the remaining capture results.  State carried
across iterations: the iteration index, the current exposure `exp_us`, the
last assigned `(Iw, Ib)` pair (`none` if never assigned), and the trace of
exposure values written to the camera (`cam.ExposureTime.SetValue`).  The
source also computes `std_w`/`std_b` each iteration, but only prints them. -/
def calibLoop (cfg : Cfg) (iteration : ℕ) (exp_us : ℚ)
    (last : Option (ℚ × ℚ)) (writes : List ℚ) :
    List (Option Frame) → Except CalibError CalibResult × List ℚ
  | [] =>
    match last with
    | none => (.error .unboundLocal, writes)
    | some (iw, ib) => (.ok ⟨exp_us, iw, ib⟩, writes)
  | none :: rest => calibLoop cfg (iteration + 1) exp_us last writes rest
  | some img :: rest =>
    if iteration = 0 ∧
        validate_rois (cfg.whiteRois ++ cfg.blackRois) (frameH img) (frameW img) = false
    then (.error .roiOutOfBounds, writes)
    else
      let iw := roi_stats_mean img cfg.whiteRois
      let ib := roi_stats_mean img cfg.blackRois
      if calSuccess iw ib then (.ok ⟨exp_us, iw, ib⟩, writes)
      else
        let proposed := adjust_exposure iw exp_us
        let applied := max cfg.expMin (min cfg.expMax proposed)
        calibLoop cfg (iteration + 1) applied (some (iw, ib))
          (writes ++ [applied]) rest

/-- `calibrate_led` from `src/main.py`, with the globals (`EXP_MIN`,
`EXP_MAX`, `WHITE_ROIS`, `BLACK_ROIS`, camera exposure) passed explicitly and
the per-iteration capture results abstracted as a list of `Option Frame`
(`none` models `capture_image()` returning `None`).  Returns the function's
result together with the trace of exposure writes. -/
def calibrate_led (cfg : Cfg) (exp0 : ℚ) (frames : List (Option Frame)) :
    Except CalibError CalibResult × List ℚ :=
  calibLoop cfg 0 exp0 none [] frames

/-! ### Calibration-loop lemmas -/

/-- If every remaining capture is incomplete and no means were ever assigned,
the loop falls through to the final return with `Iw`/`Ib` unbound. -/
lemma calibLoop_allNone_none (cfg : Cfg) :
    ∀ (frames : List (Option Frame)) (it : ℕ) (exp_us : ℚ) (ws : List ℚ),
      (∀ f ∈ frames, f = none) →
      calibLoop cfg it exp_us none ws frames = (.error .unboundLocal, ws) := by
  intro frames
  induction frames with
  | nil => intro it e ws _; rfl
  | cons f rest ih =>
    intro it e ws h
    have hf := h f (by simp)
    subst hf
    simp only [calibLoop]
    exact ih (it + 1) e ws fun g hg => h g (by simp [hg])

/-- If every remaining capture is incomplete but means were already assigned,
the loop falls through to the best-effort return of the carried state. -/
lemma calibLoop_allNone_some (cfg : Cfg) :
    ∀ (frames : List (Option Frame)) (it : ℕ) (exp_us iw ib : ℚ) (ws : List ℚ),
      (∀ f ∈ frames, f = none) →
      calibLoop cfg it exp_us (some (iw, ib)) ws frames =
        (.ok ⟨exp_us, iw, ib⟩, ws) := by
  intro frames
  induction frames with
  | nil => intro it e iw ib ws _; rfl
  | cons f rest ih =>
    intro it e iw ib ws h
    have hf := h f (by simp)
    subst hf
    simp only [calibLoop]
    exact ih (it + 1) e iw ib ws fun g hg => h g (by simp [hg])

/-- Once past iteration 0 the loop can never raise the ROI configuration
error: the bounds check is guarded by `iteration == 0`. -/
lemma calibLoop_no_roi_error (cfg : Cfg) :
    ∀ (frames : List (Option Frame)) (it : ℕ) (exp_us : ℚ)
      (last : Option (ℚ × ℚ)) (ws : List ℚ), it ≠ 0 →
      (calibLoop cfg it exp_us last ws frames).1 ≠ .error .roiOutOfBounds := by
  intro frames
  induction frames with
  | nil =>
    intro it e last ws _
    cases last with
    | none => simp [calibLoop]
    | some p =>
      obtain ⟨iw, ib⟩ := p
      simp [calibLoop]
  | cons f rest ih =>
    intro it e last ws hit
    cases f with
    | none =>
      simp only [calibLoop]
      exact ih (it + 1) e last ws (Nat.succ_ne_zero it)
    | some img =>
      simp only [calibLoop]
      rw [if_neg fun hc => hit hc.1]
      by_cases hs : calSuccess (roi_stats_mean img cfg.whiteRois)
          (roi_stats_mean img cfg.blackRois)
      · rw [if_pos hs]; simp
      · rw [if_neg hs]
        exact ih (it + 1) _ _ _ (Nat.succ_ne_zero it)

/-- Every exposure value the loop appends to the write trace is the clamp of
the proposed adjustment, hence lies in `[expMin, expMax]`. -/
lemma calibLoop_writes_bounded (cfg : Cfg) (hrange : cfg.expMin ≤ cfg.expMax) :
    ∀ (frames : List (Option Frame)) (it : ℕ) (exp_us : ℚ)
      (last : Option (ℚ × ℚ)) (ws : List ℚ) (v : ℚ),
      v ∈ (calibLoop cfg it exp_us last ws frames).2 →
      v ∈ ws ∨ (cfg.expMin ≤ v ∧ v ≤ cfg.expMax) := by
  intro frames
  induction frames with
  | nil =>
    intro it e last ws v hv
    cases last with
    | none => exact .inl (by simpa [calibLoop] using hv)
    | some p =>
      obtain ⟨iw, ib⟩ := p
      exact .inl (by simpa [calibLoop] using hv)
  | cons f rest ih =>
    intro it e last ws v hv
    cases f with
    | none =>
      simp only [calibLoop] at hv
      exact ih _ _ _ _ _ hv
    | some img =>
      simp only [calibLoop] at hv
      by_cases h1 : it = 0 ∧ validate_rois (cfg.whiteRois ++ cfg.blackRois)
          (frameH img) (frameW img) = false
      · rw [if_pos h1] at hv
        exact .inl hv
      · rw [if_neg h1] at hv
        by_cases hs : calSuccess (roi_stats_mean img cfg.whiteRois)
            (roi_stats_mean img cfg.blackRois)
        · rw [if_pos hs] at hv
          exact .inl hv
        · rw [if_neg hs] at hv
          rcases ih _ _ _ _ _ hv with h | h
          · rcases List.mem_append.mp h with h' | h'
            · exact .inl h'
            · right
              have hv' : v = max cfg.expMin (min cfg.expMax
                  (adjust_exposure (roi_stats_mean img cfg.whiteRois) e)) := by
                simpa using h'
              subst hv'
              exact ⟨le_max_left _ _, max_le hrange (min_le_left _ _)⟩
          · exact .inr h

/-- If every complete frame passes validation but fails the success condition,
and at least one frame is complete, the loop terminates normally with the
means of the last complete frame and with the exposure equal to the last
written (clamped) value. -/
lemma calibLoop_no_success (cfg : Cfg) :
    ∀ (frames : List (Option Frame)) (it : ℕ) (exp_us : ℚ)
      (last : Option (ℚ × ℚ)) (ws : List ℚ),
      (∀ img, some img ∈ frames →
        validate_rois (cfg.whiteRois ++ cfg.blackRois) (frameH img) (frameW img) = true) →
      (∀ img, some img ∈ frames →
        ¬ calSuccess (roi_stats_mean img cfg.whiteRois) (roi_stats_mean img cfg.blackRois)) →
      frames.filterMap id ≠ [] →
      ∃ res ws2 img,
        calibLoop cfg it exp_us last ws frames = (.ok res, ws ++ ws2)
        ∧ (frames.filterMap id).getLast? = some img
        ∧ res.iWhite = roi_stats_mean img cfg.whiteRois
        ∧ res.iBlack = roi_stats_mean img cfg.blackRois
        ∧ ws2 ≠ []
        ∧ ws2.getLast? = some res.exposure := by
  intro frames
  induction frames with
  | nil => intro it e last ws _ _ hne; simp at hne
  | cons f rest ih =>
    intro it e last ws hval hfail hne
    cases f with
    | none =>
      simp only [calibLoop]
      obtain ⟨res, ws2, img, heq, hgl, hw, hb, hws, hlw⟩ :=
        ih (it + 1) e last ws (fun i hi => hval i (by simp [hi]))
          (fun i hi => hfail i (by simp [hi])) (by simpa using hne)
      exact ⟨res, ws2, img, heq, by simpa using hgl, hw, hb, hws, hlw⟩
    | some img0 =>
      have hv := hval img0 (by simp)
      have hf := hfail img0 (by simp)
      simp only [calibLoop]
      rw [if_neg (by simp [hv])]
      rw [if_neg hf]
      by_cases hrest : rest.filterMap id = []
      · have hrn : ∀ g ∈ rest, g = none := by
          intro g hg
          simpa using List.filterMap_eq_nil_iff.mp hrest g hg
        rw [calibLoop_allNone_some cfg rest (it + 1) _ _ _ _ hrn]
        refine ⟨⟨_, _, _⟩, [max cfg.expMin (min cfg.expMax
            (adjust_exposure (roi_stats_mean img0 cfg.whiteRois) e))], img0,
          rfl, ?_, rfl, rfl, by simp, by simp⟩
        simp [hrest]
      · obtain ⟨res, ws2, img, heq, hgl, hw, hb, hws, hlw⟩ :=
          ih (it + 1) _ (some (roi_stats_mean img0 cfg.whiteRois,
              roi_stats_mean img0 cfg.blackRois))
            (ws ++ [max cfg.expMin (min cfg.expMax
              (adjust_exposure (roi_stats_mean img0 cfg.whiteRois) e))])
            (fun i hi => hval i (by simp [hi]))
            (fun i hi => hfail i (by simp [hi])) hrest
        refine ⟨res, max cfg.expMin (min cfg.expMax
            (adjust_exposure (roi_stats_mean img0 cfg.whiteRois) e)) :: ws2,
          img, ?_, ?_, hw, hb, by simp, ?_⟩
        · rw [heq]
          congr 1
          simp
        · obtain ⟨b, t, hbt⟩ := List.exists_cons_of_ne_nil hrest
          have : (some img0 :: rest).filterMap id = img0 :: rest.filterMap id := by
            simp
          rw [this, hbt, List.getLast?_cons_cons, ← hbt]
          exact hgl
        · obtain ⟨b2, t2, hbt2⟩ := List.exists_cons_of_ne_nil hws
          rw [hbt2, List.getLast?_cons_cons, ← hbt2]
          exact hlw

/-! ### Quality-gate theorems -/

/-- C5: For every input, evaluate runs all five quality checks without
short-circuiting and returns exactly the warnings whose conditions hold, as an
ordered list (possibly empty) in the fixed order Drift, Saturation,
LowDynamicRange, NoisyWhite, NoisyBlack; the list is empty if and only if none
of the five conditions fires. -/
theorem qc_runs_all_checks_in_order (led : ℕ) (iw ib sw sb cw cb : ℚ) :
    apply_qc_and_print led iw ib sw sb cw cb =
      (if cw > 1e-3 ∧ |iw - cw| / cw > DRIFT_FRAC_MAX then
        [Warning.drift (|iw - cw| / cw)] else [])
      ++ (if iw > SAT_THRESH * MAX_VAL then [Warning.saturation] else [])
      ++ (if iw - ib < DR_MIN then [Warning.lowDynamicRange (iw - ib)] else [])
      ++ (if sw > STD_WHITE_MAX then [Warning.noisyWhite sw] else [])
      ++ (if sb > STD_BLACK_MAX then [Warning.noisyBlack sb] else [])
    ∧ (apply_qc_and_print led iw ib sw sb cw cb = [] ↔
        ¬(cw > 1e-3 ∧ |iw - cw| / cw > DRIFT_FRAC_MAX)
        ∧ ¬(iw > SAT_THRESH * MAX_VAL)
        ∧ ¬(iw - ib < DR_MIN)
        ∧ ¬(sw > STD_WHITE_MAX)
        ∧ ¬(sb > STD_BLACK_MAX)) := by
  unfold apply_qc_and_print
  by_cases h1 : cw > 1e-3 <;>
    by_cases h2 : |iw - cw| / cw > DRIFT_FRAC_MAX <;>
    by_cases h3 : iw > SAT_THRESH * MAX_VAL <;>
    by_cases h4 : iw - ib < DR_MIN <;>
    by_cases h5 : sw > STD_WHITE_MAX <;>
    by_cases h6 : sb > STD_BLACK_MAX <;>
    simp [h1, h2, h3, h4, h5, h6]

/-- C5 witness: concrete instantiation of the empty-list characterization. -/
theorem qc_runs_all_checks_in_order_witness :
    apply_qc_and_print 1 180 150 5 5 180 20 = [] ↔
      ¬((180:ℚ) > 1e-3 ∧ |(180:ℚ) - 180| / 180 > DRIFT_FRAC_MAX)
      ∧ ¬((180:ℚ) > SAT_THRESH * MAX_VAL)
      ∧ ¬((180:ℚ) - 150 < DR_MIN)
      ∧ ¬((5:ℚ) > STD_WHITE_MAX)
      ∧ ¬((5:ℚ) > STD_BLACK_MAX) :=
  (qc_runs_all_checks_in_order 1 180 150 5 5 180 20).2

/-- C7: The Drift check divides by `baseline.white_mean` only under the guard
`baseline.white_mean > 1e-3` (so the guard rules out a zero denominator), and
a Drift warning is emitted iff the guard holds and the relative drift exceeds
`DRIFT_FRAC_MAX`.  In the spec's scenario (baseline 180, current 220) the
relative drift is `2/9 ≈ 0.222 > 0.10`, the warning fires carrying `2/9`, and
`(2/9)·100` rounds to the reported `22.2` percent. -/
theorem qc_drift_guard_and_scenario :
    (∀ (led : ℕ) (iw ib sw sb cw cb : ℚ),
      (∃ d, Warning.drift d ∈ apply_qc_and_print led iw ib sw sb cw cb) ↔
        (cw > 1e-3 ∧ |iw - cw| / cw > DRIFT_FRAC_MAX))
    ∧ (∀ cw : ℚ, cw > 1e-3 → cw ≠ 0)
    ∧ (|(220:ℚ) - 180| / 180 = 2/9)
    ∧ Warning.drift (2/9) ∈ apply_qc_and_print 1 220 20 1 1 180 20
    ∧ ((2/9 : ℚ) > DRIFT_FRAC_MAX)
    ∧ (|(2/9 : ℚ) * 100 - 22.2| < 0.05) := by
  have hdrift : ∀ (led : ℕ) (iw ib sw sb cw cb : ℚ),
      (∃ d, Warning.drift d ∈ apply_qc_and_print led iw ib sw sb cw cb) ↔
        (cw > 1e-3 ∧ |iw - cw| / cw > DRIFT_FRAC_MAX) := by
    intro led iw ib sw sb cw cb
    unfold apply_qc_and_print
    by_cases h1 : cw > 1e-3 <;>
      by_cases h2 : |iw - cw| / cw > DRIFT_FRAC_MAX <;>
      by_cases h3 : iw > SAT_THRESH * MAX_VAL <;>
      by_cases h4 : iw - ib < DR_MIN <;>
      by_cases h5 : sw > STD_WHITE_MAX <;>
      by_cases h6 : sb > STD_BLACK_MAX <;>
      simp [h1, h2, h3, h4, h5, h6]
  refine ⟨hdrift, ?_, ?_, ?_, ?_, ?_⟩
  · intro cw h
    have : (0:ℚ) < cw := lt_trans (by norm_num) h
    exact ne_of_gt this
  · norm_num
  · have hlist : apply_qc_and_print 1 220 20 1 1 180 20 = [Warning.drift (2/9)] := by
      unfold apply_qc_and_print
      norm_num [DRIFT_FRAC_MAX, SAT_THRESH, MAX_VAL, DR_MIN, STD_WHITE_MAX, STD_BLACK_MAX]
    rw [hlist]
    simp
  · norm_num [DRIFT_FRAC_MAX]
  · norm_num [abs_lt]

/-- C7 witness: the drift-membership characterization at concrete inputs. -/
theorem qc_drift_guard_and_scenario_witness :
    (∃ d, Warning.drift d ∈ apply_qc_and_print 1 220 20 1 1 180 20) ↔
      ((180:ℚ) > 1e-3 ∧ |(220:ℚ) - 180| / 180 > DRIFT_FRAC_MAX) :=
  qc_drift_guard_and_scenario.1 1 220 20 1 1 180 20

/-! ### Normalization theorems -/

/-- C8: For every finite input frame and every pair of white/black means,
`normalize_with_refs` raises no error (its gain denominator
`max (white − black) 1e-6` is strictly positive, so white ≤ black yields a
large positive gain rather than a division by zero or a negative gain), it
preserves the frame's shape, and every element of its output lies in
`[0, 1]`. -/
theorem normalize_total_and_bounded (img : Frame) (iWhite iBlack : ℚ) :
    0 < max (iWhite - iBlack) (1e-6 : ℚ)
    ∧ (normalize_with_refs img iWhite iBlack).length = img.length
    ∧ ∀ row ∈ normalize_with_refs img iWhite iBlack, ∀ v ∈ row,
        0 ≤ v ∧ v ≤ 1 := by
  refine ⟨?_, ?_, ?_⟩
  · exact lt_max_of_lt_right (by norm_num)
  · simp [normalize_with_refs]
  · intro row hrow v hv
    simp only [normalize_with_refs, List.mem_map] at hrow
    obtain ⟨row0, _, hrow0⟩ := hrow
    subst hrow0
    simp only [List.mem_map] at hv
    obtain ⟨p, _, hp⟩ := hv
    subst hp
    constructor
    · exact le_min (le_max_right _ _) (by norm_num)
    · exact min_le_right _ _

/-- C8 witness: a saturated pixel is clipped to exactly 1, which lies in
`[0, 1]`. -/
theorem normalize_total_and_bounded_witness : (0:ℚ) ≤ 1 ∧ (1:ℚ) ≤ 1 := by
  have hmem : normalize_with_refs [[(300:ℚ)]] 180 20 = [[1]] := by
    unfold normalize_with_refs
    norm_num
  exact (normalize_total_and_bounded [[(300:ℚ)]] 180 20).2.2 [1]
    (by rw [hmem]; simp) 1 (by simp)

/-! ### Exposure-calibrator theorems -/

/-- C1 (amended): in calibrate, every iteration whose frame fails the success
condition adjusts the exposure multiplicatively by exactly one of three
factors, with a STRICT comparison against the saturation level: if
`white_mean > SATURATION_FRACTION × MAX_VALUE` the exposure is multiplied by
0.7; else if `white_mean > TARGET_WHITE` it is multiplied by 0.9; else it is
multiplied by 1.3.  The second conjunct ties the rule to the loop: a failing
first iteration recurses with the clamp of `adjust_exposure` and records that
value in the write trace. -/
theorem adjust_rule_three_factors :
    (∀ iw e : ℚ,
      (SAT_THRESH * MAX_VAL < iw → adjust_exposure iw e = e * 0.7)
      ∧ (iw ≤ SAT_THRESH * MAX_VAL → TARGET_WHITE < iw → adjust_exposure iw e = e * 0.9)
      ∧ (iw ≤ TARGET_WHITE → adjust_exposure iw e = e * 1.3))
    ∧ ∀ (cfg : Cfg) (exp0 : ℚ) (img : Frame) (rest : List (Option Frame)),
        validate_rois (cfg.whiteRois ++ cfg.blackRois) (frameH img) (frameW img) = true →
        ¬ calSuccess (roi_stats_mean img cfg.whiteRois) (roi_stats_mean img cfg.blackRois) →
        calibrate_led cfg exp0 (some img :: rest) =
          calibLoop cfg 1
            (max cfg.expMin (min cfg.expMax
              (adjust_exposure (roi_stats_mean img cfg.whiteRois) exp0)))
            (some (roi_stats_mean img cfg.whiteRois, roi_stats_mean img cfg.blackRois))
            [max cfg.expMin (min cfg.expMax
              (adjust_exposure (roi_stats_mean img cfg.whiteRois) exp0))]
            rest := by
  constructor
  · intro iw e
    have htarget : TARGET_WHITE ≤ SAT_THRESH * MAX_VAL := by
      norm_num [TARGET_WHITE, SAT_THRESH, MAX_VAL]
    refine ⟨?_, ?_, ?_⟩
    · intro h
      rw [adjust_exposure, if_pos h]
    · intro h1 h2
      rw [adjust_exposure, if_neg (not_lt.mpr h1), if_pos h2]
    · intro h
      rw [adjust_exposure, if_neg (not_lt.mpr (le_trans h htarget)),
        if_neg (not_lt.mpr h)]
  · intro cfg exp0 img rest hval hfail
    unfold calibrate_led
    simp only [calibLoop]
    rw [if_neg (by simp [hval]), if_neg hfail]
    simp

/-- C1 amended-claim witness: each branch at a concrete input, and the
one-step loop characterization on a concrete failing frame. -/
theorem adjust_rule_three_factors_witness :
    adjust_exposure 250 100 = 100 * 0.7
    ∧ adjust_exposure 200 100 = 100 * 0.9
    ∧ adjust_exposure 100 100 = 100 * 1.3
    ∧ calibrate_led ⟨1, 1000000, [⟨0, 0, 1, 1⟩], [⟨1, 0, 2, 1⟩]⟩ 100
        (some [[100, 20], [0, 0]] :: []) =
      calibLoop ⟨1, 1000000, [⟨0, 0, 1, 1⟩], [⟨1, 0, 2, 1⟩]⟩ 1
        (max (1 : ℚ) (min 1000000
          (adjust_exposure (roi_stats_mean [[100, 20], [0, 0]] [⟨0, 0, 1, 1⟩]) 100)))
        (some (roi_stats_mean [[100, 20], [0, 0]] [⟨0, 0, 1, 1⟩],
          roi_stats_mean [[100, 20], [0, 0]] [⟨1, 0, 2, 1⟩]))
        [max (1 : ℚ) (min 1000000
          (adjust_exposure (roi_stats_mean [[100, 20], [0, 0]] [⟨0, 0, 1, 1⟩]) 100))]
        [] := by
  have hiw : roi_stats_mean [[(100 : ℚ), 20], [0, 0]] [⟨0, 0, 1, 1⟩] = 100 := by
    unfold roi_stats_mean listMean patch_mean patch pySlice patchSum patchCount
    norm_num
  have hib : roi_stats_mean [[(100 : ℚ), 20], [0, 0]] [⟨1, 0, 2, 1⟩] = 20 := by
    unfold roi_stats_mean listMean patch_mean patch pySlice patchSum patchCount
    norm_num
  refine ⟨?_, ?_, ?_, ?_⟩
  · exact (adjust_rule_three_factors.1 250 100).1
      (by norm_num [SAT_THRESH, MAX_VAL])
  · exact (adjust_rule_three_factors.1 200 100).2.1
      (by norm_num [SAT_THRESH, MAX_VAL]) (by norm_num [TARGET_WHITE])
  · exact (adjust_rule_three_factors.1 100 100).2.2 (by norm_num [TARGET_WHITE])
  · exact adjust_rule_three_factors.2 _ 100 [[100, 20], [0, 0]] [] rfl
      (by rw [hiw, hib]
          norm_num [calSuccess, TARGET_WHITE, WHITE_TOL, DR_MIN, SAT_THRESH,
            MAX_VAL, abs_le])

/-- C1 counterexample: at `white_mean = 249.9 = SATURATION_FRACTION × MAX_VALUE`
exactly (so `white_mean ≥ SATURATION_FRACTION × MAX_VALUE` holds), a full
`calibrate_led` run applies `100 × 0.9 = 90` to the camera, not `100 × 0.7 = 70`
as the claim's `≥`-guarded first branch requires. -/
theorem adjust_rule_boundary_counterexample :
    SAT_THRESH * MAX_VAL ≤ (2499 / 10 : ℚ)
    ∧ ¬ calSuccess (2499 / 10) 0
    ∧ calibrate_led ⟨1, 1000000, [⟨0, 0, 10, 1⟩], [⟨0, 1, 10, 2⟩]⟩ 100
        [some [[250, 250, 250, 250, 250, 250, 250, 250, 250, 249],
               [0, 0, 0, 0, 0, 0, 0, 0, 0, 0]], none, none, none, none]
      = (.ok ⟨90, 2499 / 10, 0⟩, [90])
    ∧ (90 : ℚ) ≠ 100 * 0.7 := by
  refine ⟨?_, ?_, ?_, ?_⟩
  · norm_num [SAT_THRESH, MAX_VAL]
  · norm_num [calSuccess, TARGET_WHITE, WHITE_TOL, DR_MIN, SAT_THRESH, MAX_VAL, abs_le]
  · norm_num [calibrate_led, calibLoop, validate_rois, calSuccess,
      adjust_exposure, roi_stats_mean, listMean, patch_mean, patch, pySlice,
      patchSum, patchCount, frameH, frameW, TARGET_WHITE, WHITE_TOL, DR_MIN,
      SAT_THRESH, MAX_VAL, abs_le, max_def, min_def]
  · norm_num

/-- C2: when the iteration budget is exhausted without ever meeting the
success condition (and at least one frame was complete and the regions are in
bounds), `calibrate_led` returns normally with the means of the last complete
frame and the last written exposure — non-convergence raises no error. -/
theorem calibrate_exhaustion_returns_last (cfg : Cfg) (exp0 : ℚ)
    (frames : List (Option Frame))
    (_hlen : frames.length = itertaions)
    (hval : ∀ img, some img ∈ frames →
      validate_rois (cfg.whiteRois ++ cfg.blackRois) (frameH img) (frameW img) = true)
    (hfail : ∀ img, some img ∈ frames →
      ¬ calSuccess (roi_stats_mean img cfg.whiteRois) (roi_stats_mean img cfg.blackRois))
    (hsome : frames.filterMap id ≠ []) :
    ∃ res ws img,
      calibrate_led cfg exp0 frames = (.ok res, ws)
      ∧ (frames.filterMap id).getLast? = some img
      ∧ res.iWhite = roi_stats_mean img cfg.whiteRois
      ∧ res.iBlack = roi_stats_mean img cfg.blackRois
      ∧ ws.getLast? = some res.exposure := by
  obtain ⟨res, ws2, img, heq, hgl, hw, hb, _, hlw⟩ :=
    calibLoop_no_success cfg frames 0 exp0 none [] hval hfail hsome
  exact ⟨res, ws2, img, by simpa [calibrate_led] using heq, hgl, hw, hb, hlw⟩

/-- C2 witness: five complete frames that are always too dark; the run ends
normally, returning the last frame's means and the last written exposure. -/
theorem calibrate_exhaustion_returns_last_witness :
    ([some [[(100 : ℚ), 20], [0, 0]], some [[100, 20], [0, 0]],
      some [[100, 20], [0, 0]], some [[100, 20], [0, 0]],
      some [[100, 20], [0, 0]]].length = itertaions)
    ∧ ∃ res ws img,
        calibrate_led ⟨1, 1000000, [⟨0, 0, 1, 1⟩], [⟨1, 0, 2, 1⟩]⟩ 100
          [some [[(100 : ℚ), 20], [0, 0]], some [[100, 20], [0, 0]],
           some [[100, 20], [0, 0]], some [[100, 20], [0, 0]],
           some [[100, 20], [0, 0]]] = (.ok res, ws)
        ∧ ([some [[(100 : ℚ), 20], [0, 0]], some [[100, 20], [0, 0]],
            some [[100, 20], [0, 0]], some [[100, 20], [0, 0]],
            some [[100, 20], [0, 0]]].filterMap id).getLast? = some img
        ∧ res.iWhite = roi_stats_mean img [⟨0, 0, 1, 1⟩]
        ∧ res.iBlack = roi_stats_mean img [⟨1, 0, 2, 1⟩]
        ∧ ws.getLast? = some res.exposure := by
  have hiw : roi_stats_mean [[(100 : ℚ), 20], [0, 0]] [⟨0, 0, 1, 1⟩] = 100 := by
    unfold roi_stats_mean listMean patch_mean patch pySlice patchSum patchCount
    norm_num
  have hib : roi_stats_mean [[(100 : ℚ), 20], [0, 0]] [⟨1, 0, 2, 1⟩] = 20 := by
    unfold roi_stats_mean listMean patch_mean patch pySlice patchSum patchCount
    norm_num
  refine ⟨rfl, calibrate_exhaustion_returns_last _ 100 _ rfl ?_ ?_ (by simp)⟩
  · intro img h
    simp only [List.mem_cons, List.not_mem_nil, or_false, Option.some_inj] at h
    have himg : img = [[(100 : ℚ), 20], [0, 0]] := by tauto
    subst himg
    rfl
  · intro img h
    simp only [List.mem_cons, List.not_mem_nil, or_false, Option.some_inj] at h
    have himg : img = [[(100 : ℚ), 20], [0, 0]] := by tauto
    subst himg
    rw [hiw, hib]
    norm_num [calSuccess, TARGET_WHITE, WHITE_TOL, DR_MIN, SAT_THRESH, MAX_VAL, abs_le]

/-- C3: if every one of the `itertaions` capture attempts yields an incomplete
frame, `calibrate_led` does not return a best-effort triple: the final return
references the never-assigned white/black means, i.e. the call fails with
Python's unbound-local (NameError-family) error. -/
theorem calibrate_all_incomplete_unbound_local (cfg : Cfg) (exp0 : ℚ)
    (frames : List (Option Frame))
    (_hlen : frames.length = itertaions)
    (hall : ∀ f ∈ frames, f = none) :
    calibrate_led cfg exp0 frames = (.error .unboundLocal, []) :=
  calibLoop_allNone_none cfg frames 0 exp0 [] hall

/-- C3 witness: five incomplete captures end in the unbound-local error. -/
theorem calibrate_all_incomplete_unbound_local_witness :
    ([none, none, none, none, none] : List (Option Frame)).length = itertaions
    ∧ calibrate_led ⟨1, 1000000, [⟨0, 0, 1, 1⟩], [⟨1, 0, 2, 1⟩]⟩ 100
        [none, none, none, none, none] = (.error .unboundLocal, []) :=
  ⟨rfl, calibrate_all_incomplete_unbound_local _ 100 _ rfl (by simp)⟩

/-- C4: if iteration 0 captures a complete frame whose statistics already meet
the success condition, `calibrate_led` returns immediately with that
iteration's means, the exposure setpoint unchanged, and an empty write trace
(no exposure write ever reaches the camera). -/
theorem calibrate_immediate_success (cfg : Cfg) (exp0 : ℚ) (img : Frame)
    (rest : List (Option Frame))
    (hval : validate_rois (cfg.whiteRois ++ cfg.blackRois) (frameH img) (frameW img) = true)
    (hsucc : calSuccess (roi_stats_mean img cfg.whiteRois) (roi_stats_mean img cfg.blackRois)) :
    calibrate_led cfg exp0 (some img :: rest) =
      (.ok ⟨exp0, roi_stats_mean img cfg.whiteRois, roi_stats_mean img cfg.blackRois⟩,
        []) := by
  unfold calibrate_led
  simp only [calibLoop]
  rw [if_neg (by simp [hval]), if_pos hsucc]

/-- C4 witness: a frame with white mean 180 and black mean 20 converges on
iteration 0 with no exposure write. -/
theorem calibrate_immediate_success_witness :
    calSuccess (180 : ℚ) 20
    ∧ calibrate_led ⟨1, 1000000, [⟨0, 0, 1, 1⟩], [⟨1, 0, 2, 1⟩]⟩ 100
        [some [[180, 20], [0, 0]]]
      = (.ok ⟨100, roi_stats_mean [[180, 20], [0, 0]] [⟨0, 0, 1, 1⟩],
          roi_stats_mean [[180, 20], [0, 0]] [⟨1, 0, 2, 1⟩]⟩, []) := by
  have hiw : roi_stats_mean [[(180 : ℚ), 20], [0, 0]] [⟨0, 0, 1, 1⟩] = 180 := by
    unfold roi_stats_mean listMean patch_mean patch pySlice patchSum patchCount
    norm_num
  have hib : roi_stats_mean [[(180 : ℚ), 20], [0, 0]] [⟨1, 0, 2, 1⟩] = 20 := by
    unfold roi_stats_mean listMean patch_mean patch pySlice patchSum patchCount
    norm_num
  have hsucc : calSuccess (180 : ℚ) 20 := by
    norm_num [calSuccess, TARGET_WHITE, WHITE_TOL, DR_MIN, SAT_THRESH, MAX_VAL]
  exact ⟨hsucc, calibrate_immediate_success _ 100 _ [] rfl
    (by rw [hiw, hib]; exact hsucc)⟩

/-- C6: provided the Frame Source's range is well-formed
(`expMin ≤ expMax`), every exposure value actually applied to the camera
during a `calibrate_led` run (the write trace) lies within
`[expMin, expMax]` — the clamping invariant across all iterations. -/
theorem calibrate_writes_within_range (cfg : Cfg) (exp0 : ℚ)
    (frames : List (Option Frame)) (hrange : cfg.expMin ≤ cfg.expMax) :
    ∀ v ∈ (calibrate_led cfg exp0 frames).2, cfg.expMin ≤ v ∧ v ≤ cfg.expMax := by
  intro v hv
  rcases calibLoop_writes_bounded cfg hrange frames 0 exp0 none [] v hv with h | h
  · simp at h
  · exact h

/-- C6 witness: the single write (130) of a one-frame run lies within the
reported range `[1, 1000000]`. -/
theorem calibrate_writes_within_range_witness :
    (1 : ℚ) ≤ 1000000 ∧ ((1 : ℚ) ≤ 130 ∧ (130 : ℚ) ≤ 1000000) := by
  have heq : calibrate_led ⟨1, 1000000, [⟨0, 0, 1, 1⟩], [⟨1, 0, 2, 1⟩]⟩ 100
      [some [[100, 20], [0, 0]]] = (.ok ⟨130, 100, 20⟩, [130]) := by
    norm_num [calibrate_led, calibLoop, validate_rois, calSuccess,
      adjust_exposure, roi_stats_mean, listMean, patch_mean, patch, pySlice,
      patchSum, patchCount, frameH, frameW, TARGET_WHITE, WHITE_TOL, DR_MIN,
      SAT_THRESH, MAX_VAL, abs_le, max_def, min_def]
  refine ⟨by norm_num, ?_⟩
  exact calibrate_writes_within_range ⟨1, 1000000, [⟨0, 0, 1, 1⟩], [⟨1, 0, 2, 1⟩]⟩
    100 [some [[100, 20], [0, 0]]] (by norm_num) 130 (by rw [heq]; simp)

/-- C10 (amended): region bounds are validated only on iteration 0.  If
iteration 0 yields a complete frame, `calibrate_led` raises the configuration
error exactly when some region violates the bounds predicate; if iteration
0's frame is incomplete, the bounds are never validated on any later
iteration, so the configuration error is never raised. -/
theorem calibrate_validation_only_iteration0 (cfg : Cfg) (exp0 : ℚ) :
    (∀ (img : Frame) (rest : List (Option Frame)),
      (calibrate_led cfg exp0 (some img :: rest)).1 = .error .roiOutOfBounds ↔
        validate_rois (cfg.whiteRois ++ cfg.blackRois) (frameH img) (frameW img) = false)
    ∧ ∀ rest : List (Option Frame),
        (calibrate_led cfg exp0 (none :: rest)).1 ≠ .error .roiOutOfBounds := by
  constructor
  · intro img rest
    constructor
    · intro h
      by_contra hv
      have hv' : validate_rois (cfg.whiteRois ++ cfg.blackRois)
          (frameH img) (frameW img) = true := by
        simpa using hv
      unfold calibrate_led at h
      simp only [calibLoop] at h
      rw [if_neg (by simp [hv'])] at h
      by_cases hs : calSuccess (roi_stats_mean img cfg.whiteRois)
          (roi_stats_mean img cfg.blackRois)
      · rw [if_pos hs] at h
        simp at h
      · rw [if_neg hs] at h
        exact calibLoop_no_roi_error cfg rest 1 _ _ _ one_ne_zero h
    · intro hv
      unfold calibrate_led
      simp only [calibLoop]
      rw [if_pos ⟨trivial, hv⟩]
  · intro rest
    unfold calibrate_led
    simp only [calibLoop]
    exact calibLoop_no_roi_error cfg rest 1 exp0 none [] one_ne_zero

/-- C10 amended-claim witness: with an out-of-bounds white region, a complete
iteration-0 frame raises the configuration error; an incomplete iteration-0
frame never does. -/
theorem calibrate_validation_only_iteration0_witness :
    (calibrate_led ⟨1, 1000000, [⟨0, 0, 5, 1⟩], [⟨0, 1, 2, 2⟩]⟩ 100
        (some [[180, 20], [0, 0]] :: [])).1 = .error .roiOutOfBounds
    ∧ (calibrate_led ⟨1, 1000000, [⟨0, 0, 5, 1⟩], [⟨0, 1, 2, 2⟩]⟩ 100
        (none :: [some [[180, 20], [0, 0]]])).1 ≠ .error .roiOutOfBounds :=
  ⟨((calibrate_validation_only_iteration0
      ⟨1, 1000000, [⟨0, 0, 5, 1⟩], [⟨0, 1, 2, 2⟩]⟩ 100).1
      [[180, 20], [0, 0]] []).mpr rfl,
   (calibrate_validation_only_iteration0
      ⟨1, 1000000, [⟨0, 0, 5, 1⟩], [⟨0, 1, 2, 2⟩]⟩ 100).2
      [some [[180, 20], [0, 0]]]⟩

/-- C10 counterexample: the white region `(0,0,5,1)` is out of bounds for the
2×2 frame, a complete frame arrives on iteration 1 (after an incomplete
iteration 0), yet the run finishes without any `ValueError`: the check is
keyed to `iteration == 0`, not to the first complete frame. -/
theorem calibrate_validation_skipped_counterexample :
    validate_rois ([⟨0, 0, 5, 1⟩] ++ [⟨0, 1, 2, 2⟩]) 2 2 = false
    ∧ calibrate_led ⟨1, 1000000, [⟨0, 0, 5, 1⟩], [⟨0, 1, 2, 2⟩]⟩ 100
        [none, some [[180, 20], [0, 0]], none, none, none]
      = (.ok ⟨130, 100, 0⟩, [130]) := by
  refine ⟨rfl, ?_⟩
  norm_num [calibrate_led, calibLoop, validate_rois, calSuccess,
    adjust_exposure, roi_stats_mean, listMean, patch_mean, patch, pySlice,
    patchSum, patchCount, frameH, frameW, TARGET_WHITE, WHITE_TOL, DR_MIN,
    SAT_THRESH, MAX_VAL, abs_le, max_def, min_def]

/-! ### Region-statistics theorems -/

/-- C9: for every frame and non-empty region list, the region-statistics
routine returns the unweighted mean of the per-region means (and, for the
spread statistic, the unweighted mean of the per-region standard deviations),
each region counting with equal weight regardless of pixel count.  On the
concrete frame `[[0, 8, 8, 8]]` with a 1-pixel and a 3-pixel region the
mean-of-means is 4, whereas the area-weighted pooled mean is 6 — the two
aggregations genuinely differ.  The last conjunct evaluates the std
aggregation on a concrete frame: region stds 4 and 0 average to 2. -/
theorem roi_stats_equal_weight_mean_of_means :
    (∀ (img : Frame) (rois : List Roi), rois ≠ [] →
      roi_stats_mean img rois = (rois.map (patch_mean img)).sum / (rois.length : ℚ)
      ∧ roi_stats_std img rois = (rois.map (patch_std img)).sum / (rois.length : ℝ))
    ∧ roi_stats_mean [[0, 8, 8, 8]] [⟨0, 0, 1, 1⟩, ⟨1, 0, 4, 1⟩] = 4
    ∧ pooled_pixel_mean [[0, 8, 8, 8]] [⟨0, 0, 1, 1⟩, ⟨1, 0, 4, 1⟩] = 6
    ∧ (4 : ℚ) ≠ 6
    ∧ roi_stats_std [[0, 8, 5]] [⟨0, 0, 2, 1⟩, ⟨2, 0, 3, 1⟩] = 2 := by
  refine ⟨?_, ?_, ?_, by norm_num, ?_⟩
  · intro img rois _
    constructor
    · unfold roi_stats_mean listMean
      rw [List.length_map]
    · unfold roi_stats_std
      rw [List.length_map]
  · norm_num [roi_stats_mean, listMean, patch_mean, patch, pySlice, patchSum,
      patchCount]
  · norm_num [pooled_pixel_mean, patchSum, patchCount, patch, pySlice]
  · have h1 : patch_var [[0, 8, 5]] ⟨0, 0, 2, 1⟩ = 16 := by
      norm_num [patch_var, patch_mean, patch, pySlice, patchSum, patchCount]
    have h2 : patch_var [[0, 8, 5]] ⟨2, 0, 3, 1⟩ = 0 := by
      norm_num [patch_var, patch_mean, patch, pySlice, patchSum, patchCount]
    have hs16 : Real.sqrt 16 = 4 := by
      rw [show (16 : ℝ) = 4 ^ 2 by norm_num]
      exact Real.sqrt_sq (by norm_num)
    unfold roi_stats_std patch_std
    simp only [List.map_cons, List.map_nil, List.sum_cons, List.sum_nil,
      List.length_cons, List.length_nil]
    rw [h1, h2]
    push_cast
    rw [hs16, Real.sqrt_zero]
    norm_num

/-- C9 witness: the mean-of-means characterization applied to the concrete
two-region list. -/
theorem roi_stats_equal_weight_mean_of_means_witness :
    roi_stats_mean [[(0 : ℚ), 8, 8, 8]] [⟨0, 0, 1, 1⟩, ⟨1, 0, 4, 1⟩] =
      (([⟨0, 0, 1, 1⟩, ⟨1, 0, 4, 1⟩] : List Roi).map
        (patch_mean [[(0 : ℚ), 8, 8, 8]])).sum / 2
    ∧ roi_stats_std [[(0 : ℚ), 8, 8, 8]] [⟨0, 0, 1, 1⟩, ⟨1, 0, 4, 1⟩] =
      (([⟨0, 0, 1, 1⟩, ⟨1, 0, 4, 1⟩] : List Roi).map
        (patch_std [[(0 : ℚ), 8, 8, 8]])).sum / 2 :=
  roi_stats_equal_weight_mean_of_means.1 [[(0 : ℚ), 8, 8, 8]]
    [⟨0, 0, 1, 1⟩, ⟨1, 0, 4, 1⟩] (by simp)

end PeanutCalib
